import Mathlib

/-
Verification of the GasGuard Soroban cost model (src/cost_model.py).

Shallow embedding conventions:
* Python ints are modelled as ℤ, Python floats as ℚ (exact arithmetic; the
  formulas of the source are closed-form rational expressions except for
  math.exp, modelled by Real.exp).
* Python true division `a / b` raises ZeroDivisionError when `b == 0`;
  it is modelled by `pydiv`, returning `Except PyErr ℚ`.  Functions that
  perform such divisions return `Except PyErr _` and propagate the error
  exactly where the source would raise.
* Python `int(x)` truncates toward zero; it is modelled by `pytrunc`.
* Hint strings and safety-violation strings are f-strings whose numeric
  payload is float formatting; they are abstracted to tag values (`Hint`,
  `Violation`) that identify which message was appended.  Each constructor
  corresponds to exactly one `hints.append`/`safety_violations.append`
  site of the source.
* Footprint entries are arbitrary Python objects in a list; the code only
  ever takes `len` of the lists.  Entries are modelled as `Option String`
  (`none` models Python `None`).
* The `timestamp` field of `Analysis` (wall-clock metadata) is omitted:
  it is explicitly non-deterministic and not part of the modelled contract.
-/

namespace GasGuard

/-- Python `ZeroDivisionError`, the only exception the source code can raise
on the numeric paths modelled here. -/
inductive PyErr where
  | zeroDivision
deriving DecidableEq, Repr

/-- Python true division `a / b`: raises `ZeroDivisionError` when the divisor
is zero, otherwise returns the exact quotient. -/
def pydiv (a b : ℚ) : Except PyErr ℚ :=
  if b = 0 then Except.error PyErr.zeroDivision else Except.ok (a / b)

/-- Python `int(x)`: truncation toward zero. -/
def pytrunc (q : ℚ) : ℤ :=
  if q < 0 then -⌊-q⌋ else ⌊q⌋

/-- SCORE_WEIGHTS dict entry `'cpu'` (cost_model.py line 20). -/
def scoreWeightCpu : ℚ := 0.4

/-- SCORE_WEIGHTS dict entry `'memory'` (cost_model.py line 20). -/
def scoreWeightMemory : ℚ := 0.2

/-- SCORE_WEIGHTS dict entry `'ledger'` (cost_model.py line 20). -/
def scoreWeightLedger : ℚ := 0.4

/-- LEDGER_WEIGHTS constant (cost_model.py line 21). -/
def LEDGER_WEIGHTS : List ℚ := [0.2, 0.2, 0.2, 0.2, 0.2]

/-- SCALING_FACTOR_MEMORY constant (cost_model.py line 22). -/
def SCALING_FACTOR_MEMORY : ℕ := 100

/-- SorobanConfig dataclass with its field defaults (cost_model.py lines 28-60). -/
structure SorobanConfig where
  txMaxInstructions : ℤ := 100000000
  ledgerMaxInstructions : ℤ := 1000000000
  feeRatePerInstructionsIncrement : ℤ := 10000
  feeCPUPerIncrement : ℚ := 0.00001
  txMemoryLimit : ℤ := 41943040
  txMaxReadLedgerEntries : ℤ := 40
  txMaxReadBytes : ℤ := 200000
  txMaxWriteLedgerEntries : ℤ := 25
  txMaxWriteBytes : ℤ := 100000
  ledgerMaxReadLedgerEntries : ℤ := 20000
  ledgerMaxReadBytes : ℤ := 100000000
  ledgerMaxWriteLedgerEntries : ℤ := 10000
  ledgerMaxWriteBytes : ℤ := 50000000
  feeReadLedgerEntry : ℚ := 0.0001
  feeWriteLedgerEntry : ℚ := 0.0002
  feeRead1KB : ℚ := 0.00005
  feeWrite1KB : ℚ := 0.0001
  txMaxSizeBytes : ℤ := 100000
  ledgerMaxTxsSizeBytes : ℤ := 1000000
  feeTxSize1KB : ℚ := 0.00001
  version : String := "mainnet-v20"
deriving DecidableEq

/-- The default-constructed configuration `SorobanConfig()`. -/
def defaultConfig : SorobanConfig := {}

/-- Footprint dataclass (cost_model.py lines 63-67): two lists of ledger-entry
identifiers.  An entry is `some s` for a Python string, `none` for Python
`None`; the code only ever takes the length of these lists. -/
structure Footprint where
  readOnly : List (Option String)
  readWrite : List (Option String)
deriving DecidableEq

/-- SorobanResources dataclass (cost_model.py lines 70-76). -/
structure SorobanResources where
  footprint : Footprint
  instructions : ℤ
  readBytes : ℤ
  writeBytes : ℤ
deriving DecidableEq

/-- SimulationResult dataclass (cost_model.py lines 79-85). -/
structure SimulationResult where
  instructions : ℤ
  memoryBytes : ℤ
  resources : SorobanResources
  transactionSizeBytes : ℤ
deriving DecidableEq

/-- CPUCost dataclass (cost_model.py lines 88-94). -/
structure CPUCost where
  fee : ℚ
  normalized : ℚ
  ledger_pressure : ℚ
  total : ℚ
deriving DecidableEq

/-- MemoryCost dataclass (cost_model.py lines 97-102).  The `cost` field is
`SCALING_FACTOR_MEMORY * math.exp(...)`, hence a real number. -/
structure MemoryCost where
  bytes_used : ℤ
  normalized : ℚ
  cost : ℝ

/-- The five keys of the ledger utilization breakdown dict, in its fixed
insertion order (cost_model.py lines 217-223). -/
inductive LedgerDim where
  | readEntries
  | readBytes
  | writeEntries
  | writeBytes
  | bandwidth
deriving DecidableEq, Repr

/-- The `utils` dict of compute_ledger_cost as a record; the dict's insertion
order is captured by `LedgerBreakdown.toList`. -/
structure LedgerBreakdown where
  read_entries : ℚ
  read_bytes : ℚ
  write_entries : ℚ
  write_bytes : ℚ
  bandwidth : ℚ
deriving DecidableEq

/-- Dict lookup `utils[dim]`. -/
def LedgerBreakdown.get (b : LedgerBreakdown) : LedgerDim → ℚ
  | .readEntries => b.read_entries
  | .readBytes => b.read_bytes
  | .writeEntries => b.write_entries
  | .writeBytes => b.write_bytes
  | .bandwidth => b.bandwidth

/-- Dict iteration `utils.items()` in insertion order (cost_model.py lines
217-223): read_entries, read_bytes, write_entries, write_bytes, bandwidth. -/
def LedgerBreakdown.toList (b : LedgerBreakdown) : List (LedgerDim × ℚ) :=
  [(LedgerDim.readEntries, b.read_entries),
   (LedgerDim.readBytes, b.read_bytes),
   (LedgerDim.writeEntries, b.write_entries),
   (LedgerDim.writeBytes, b.write_bytes),
   (LedgerDim.bandwidth, b.bandwidth)]

/-- LedgerCost dataclass (cost_model.py lines 105-110). -/
structure LedgerCost where
  fee : ℚ
  normalized : ℚ
  breakdown : LedgerBreakdown
deriving DecidableEq

/-- Scores dataclass (cost_model.py lines 113-119). -/
structure Scores where
  cpu : ℤ
  memory : ℤ
  ledger : ℤ
  total : ℤ
deriving DecidableEq

/-- Identifying tags for the hint messages of generate_hints (cost_model.py
lines 282-322), one constructor per `hints.append` site; the f-string numeric
payloads (percent formatting) are abstracted away. -/
inductive Hint where
  | cpuCritical
  | cpuHigh
  | cpuLedgerPressure
  | memCritical
  | memModerate
  | ledgerHigh (dim : LedgerDim)
  | crossCpuReads
  | efficient
deriving DecidableEq, Repr

/-- Identifying tags for the safety-violation strings of analyze_transaction
(cost_model.py lines 345-355), one constructor per append site. -/
inductive Violation where
  | cpu
  | memory
  | ledger (dim : LedgerDim)
deriving DecidableEq, Repr

/-- The `costs` dict of Analysis, keys `'cpu'`, `'memory'`, `'ledger'`
(cost_model.py line 358). -/
structure Costs where
  cpu : CPUCost
  memory : MemoryCost
  ledger : LedgerCost

/-- Analysis dataclass (cost_model.py lines 122-130); the wall-clock
`timestamp` field is omitted (non-deterministic metadata). -/
structure Analysis where
  costs : Costs
  scores : Scores
  hints : List Hint
  safety_violations : List Violation
  config_version : String

/-- The helper `_interpolate` (cost_model.py lines 137-142): linear
interpolation with a degenerate-interval guard. -/
def interpolate (val in_min in_max out_min out_max : ℚ) : ℚ :=
  if in_max = in_min then out_min
  else out_min + ((val - in_min) / (in_max - in_min)) * (out_max - out_min)

/-- compute_cpu_cost (cost_model.py lines 149-175). -/
def compute_cpu_cost (sim : SimulationResult) (config : SorobanConfig) :
    Except PyErr CPUCost := do
  let instructions : ℚ := (sim.instructions : ℚ)
  let q ← pydiv instructions (config.feeRatePerInstructionsIncrement : ℚ)
  let fee : ℚ := (⌈q⌉ : ℚ) * config.feeCPUPerIncrement
  let util_tx ← pydiv instructions (config.txMaxInstructions : ℚ)
  let util_ledger ← pydiv instructions (config.ledgerMaxInstructions : ℚ)
  let ledger_pressure := util_ledger ^ 2
  let total_cost := fee * (1 + 0.5 * ledger_pressure)
  return { fee := fee, normalized := util_tx,
           ledger_pressure := ledger_pressure, total := total_cost }

/-- compute_memory_cost (cost_model.py lines 178-193): cost is
`SCALING_FACTOR_MEMORY * math.exp(5 * utilization)`. -/
noncomputable def compute_memory_cost (sim : SimulationResult)
    (config : SorobanConfig) : Except PyErr MemoryCost := do
  let utilization ← pydiv (sim.memoryBytes : ℚ) (config.txMemoryLimit : ℚ)
  return { bytes_used := sim.memoryBytes, normalized := utilization,
           cost := (SCALING_FACTOR_MEMORY : ℝ) * Real.exp (5 * (utilization : ℝ)) }

/-- Byte-to-kilobyte conversion `math.ceil(b / 1024)` as used by
compute_ledger_cost (cost_model.py lines 206-212). -/
def kbUnits (b : ℤ) : ℤ := ⌈(b : ℚ) / 1024⌉

/-- compute_ledger_cost (cost_model.py lines 196-232). -/
def compute_ledger_cost (sim : SimulationResult) (config : SorobanConfig) :
    Except PyErr LedgerCost := do
  let reads : ℚ := (sim.resources.footprint.readOnly.length : ℚ)
  let writes : ℚ := (sim.resources.footprint.readWrite.length : ℚ)
  let cost_reads : ℚ := reads * config.feeReadLedgerEntry +
    (kbUnits sim.resources.readBytes : ℚ) * config.feeRead1KB
  let cost_writes : ℚ := writes * config.feeWriteLedgerEntry +
    (kbUnits sim.resources.writeBytes : ℚ) * config.feeWrite1KB
  let cost_bandwidth : ℚ := (kbUnits sim.transactionSizeBytes : ℚ) * config.feeTxSize1KB
  let total_fee := cost_reads + cost_writes + cost_bandwidth
  let u_re ← pydiv reads (config.txMaxReadLedgerEntries : ℚ)
  let u_rb ← pydiv (sim.resources.readBytes : ℚ) (config.txMaxReadBytes : ℚ)
  let u_we ← pydiv writes (config.txMaxWriteLedgerEntries : ℚ)
  let u_wb ← pydiv (sim.resources.writeBytes : ℚ) (config.txMaxWriteBytes : ℚ)
  let u_bw ← pydiv (sim.transactionSizeBytes : ℚ) (config.txMaxSizeBytes : ℚ)
  let utils : LedgerBreakdown := ⟨u_re, u_rb, u_we, u_wb, u_bw⟩
  let composite_norm :=
    (List.zipWith (fun u w => u * w) (utils.toList.map Prod.snd) LEDGER_WEIGHTS).sum
  return { fee := total_fee, normalized := composite_norm, breakdown := utils }

/-- score_dimension (cost_model.py lines 239-255).  The two threshold
parameters are optional in the source and left at their defaults 0.5 and 0.8
by every caller; they are inlined here.  `int(max(0, min(100, score)))` is
Python truncation of the clamped value. -/
def score_dimension (utilization : ℚ) : ℤ :=
  let score : ℚ :=
    if utilization < 0.5 then interpolate utilization 0 0.5 100 80
    else if utilization < 0.8 then interpolate utilization 0.5 0.8 80 50
    else interpolate utilization 0.8 1 50 0
  pytrunc (max 0 (min 100 score))

/-- compute_scores (cost_model.py lines 258-275). -/
def compute_scores (cpu : CPUCost) (mem : MemoryCost) (ledger : LedgerCost) :
    Scores :=
  let s_cpu := score_dimension cpu.normalized
  let s_mem := score_dimension mem.normalized
  let s_ledger := score_dimension ledger.normalized
  let s_total := pytrunc (scoreWeightCpu * (s_cpu : ℚ) +
    scoreWeightMemory * (s_mem : ℚ) + scoreWeightLedger * (s_ledger : ℚ))
  ⟨s_cpu, s_mem, s_ledger, s_total⟩

/-- generate_hints (cost_model.py lines 282-322); each appended message is
represented by its `Hint` tag, the list order is the append order. -/
def generate_hints (cpu : CPUCost) (mem : MemoryCost) (ledger : LedgerCost) :
    List Hint :=
  let hints : List Hint :=
    (if 0.8 < cpu.normalized then [Hint.cpuCritical]
     else if 0.6 < cpu.normalized then [Hint.cpuHigh] else []) ++
    (if 0.5 < cpu.ledger_pressure then [Hint.cpuLedgerPressure] else []) ++
    (if 0.7 < mem.normalized then [Hint.memCritical]
     else if 0.5 < mem.normalized then [Hint.memModerate] else []) ++
    (ledger.breakdown.toList.filterMap fun p =>
      if 0.75 < p.2 then some (Hint.ledgerHigh p.1) else none) ++
    (if 0.7 < cpu.normalized ∧ 0.5 < ledger.breakdown.read_entries
     then [Hint.crossCpuReads] else [])
  if hints = [] then [Hint.efficient] else hints

/-- The safety check inlined in analyze_transaction (cost_model.py lines
345-355): one violation tag per append site, in append order. -/
def safety_check (cpu : CPUCost) (mem : MemoryCost) (ledger : LedgerCost) :
    List Violation :=
  (if 0.95 < cpu.normalized then [Violation.cpu] else []) ++
  (if 0.95 < mem.normalized then [Violation.memory] else []) ++
  (ledger.breakdown.toList.filterMap fun p =>
    if 0.95 < p.2 then some (Violation.ledger p.1) else none)

/-- analyze_transaction (cost_model.py lines 329-364). -/
noncomputable def analyze_transaction (sim : SimulationResult)
    (config : SorobanConfig) : Except PyErr Analysis := do
  let cpu ← compute_cpu_cost sim config
  let mem ← compute_memory_cost sim config
  let ledger ← compute_ledger_cost sim config
  let scores := compute_scores cpu mem ledger
  let hints := generate_hints cpu mem ledger
  let violations := safety_check cpu mem ledger
  return { costs := ⟨cpu, mem, ledger⟩, scores := scores, hints := hints,
           safety_violations := violations, config_version := config.version }

/-- The three-band piecewise-linear scoring curve exactly as the spec words
it (spec §4.4): `[0,0.5)` mapped linearly onto `[100,80]`, `[0.5,0.8)` onto
`[80,50]`, `[0.8,∞)` onto `[50,0]` extrapolated linearly past 1.0. -/
def spec_score_curve (u : ℚ) : ℚ :=
  if u < 0.5 then 100 - 40 * u
  else if u < 0.8 then 80 - 100 * (u - 0.5)
  else 50 - 250 * (u - 0.8)

/-- The hint rule list exactly as the spec words it (spec §4.5): the rules in
their fixed evaluation order, each contributing its message when it fires
(the else-if structure of the CPU and memory threshold rules is made explicit
as mutually exclusive conditions). -/
def spec_rule_hints (cpu : CPUCost) (mem : MemoryCost) (ledger : LedgerCost) :
    List Hint :=
  (if 0.8 < cpu.normalized then [Hint.cpuCritical] else []) ++
  (if 0.6 < cpu.normalized ∧ cpu.normalized ≤ 0.8 then [Hint.cpuHigh] else []) ++
  (if 0.5 < cpu.ledger_pressure then [Hint.cpuLedgerPressure] else []) ++
  (if 0.7 < mem.normalized then [Hint.memCritical] else []) ++
  (if 0.5 < mem.normalized ∧ mem.normalized ≤ 0.7 then [Hint.memModerate] else []) ++
  (if 0.75 < ledger.breakdown.read_entries then [Hint.ledgerHigh LedgerDim.readEntries] else []) ++
  (if 0.75 < ledger.breakdown.read_bytes then [Hint.ledgerHigh LedgerDim.readBytes] else []) ++
  (if 0.75 < ledger.breakdown.write_entries then [Hint.ledgerHigh LedgerDim.writeEntries] else []) ++
  (if 0.75 < ledger.breakdown.write_bytes then [Hint.ledgerHigh LedgerDim.writeBytes] else []) ++
  (if 0.75 < ledger.breakdown.bandwidth then [Hint.ledgerHigh LedgerDim.bandwidth] else []) ++
  (if 0.7 < cpu.normalized ∧ 0.5 < ledger.breakdown.read_entries
   then [Hint.crossCpuReads] else [])

section Helpers

/-- A nonzero divisor makes `pydiv` succeed with the exact quotient. -/
theorem pydiv_ne {b : ℚ} (a : ℚ) (h : b ≠ 0) : pydiv a b = Except.ok (a / b) :=
  if_neg h

/-- A zero divisor makes `pydiv` raise. -/
theorem pydiv_zero (a : ℚ) : pydiv a 0 = Except.error PyErr.zeroDivision :=
  if_pos rfl

/-- Python truncation agrees with flooring on non-negative values. -/
theorem pytrunc_eq_floor {q : ℚ} (h : 0 ≤ q) : pytrunc q = ⌊q⌋ :=
  if_neg (not_lt.2 h)

/-- Flooring commutes with the clamp to `[0, 100]`. -/
theorem floor_clamp (s : ℚ) :
    ⌊max (0 : ℚ) (min 100 s)⌋ = max 0 (min 100 ⌊s⌋) := by
  have h100 : ⌊(100 : ℚ)⌋ = 100 := by norm_num
  rcases le_total s 0 with h0 | h0
  · have hf : ⌊s⌋ ≤ 0 := by
      have h := Int.floor_le_floor (α := ℚ) h0
      simpa using h
    rw [min_eq_right (h0.trans (by norm_num : (0 : ℚ) ≤ 100)), max_eq_left h0,
      min_eq_right (hf.trans (by norm_num : (0 : ℤ) ≤ 100)), max_eq_left hf,
      Int.floor_zero]
  · rcases le_total s 100 with h1 | h1
    · have hf1 : ⌊s⌋ ≤ 100 := by
        have h := Int.floor_le_floor (α := ℚ) h1
        rwa [h100] at h
      have hf0 : 0 ≤ ⌊s⌋ := by
        have h := Int.floor_le_floor (α := ℚ) h0
        simpa using h
      rw [min_eq_right h1, max_eq_right h0, min_eq_right hf1, max_eq_right hf0]
    · have hf1 : 100 ≤ ⌊s⌋ := by
        have h := Int.floor_le_floor (α := ℚ) h1
        rwa [h100] at h
      rw [min_eq_left h1, min_eq_left hf1,
        max_eq_right (by norm_num : (0 : ℚ) ≤ 100),
        max_eq_right (by norm_num : (0 : ℤ) ≤ 100), h100]

/-- The first scoring band: `_interpolate(u, 0, 0.5, 100, 80) = 100 - 40u`. -/
theorem interpolate_band1 (u : ℚ) : interpolate u 0 0.5 100 80 = 100 - 40 * u := by
  unfold interpolate
  norm_num
  ring

/-- The second scoring band:
`_interpolate(u, 0.5, 0.8, 80, 50) = 80 - 100(u - 0.5)`. -/
theorem interpolate_band2 (u : ℚ) :
    interpolate u 0.5 0.8 80 50 = 80 - 100 * (u - 0.5) := by
  unfold interpolate
  norm_num
  ring

/-- The third scoring band:
`_interpolate(u, 0.8, 1, 50, 0) = 50 - 250(u - 0.8)`. -/
theorem interpolate_band3 (u : ℚ) :
    interpolate u 0.8 1 50 0 = 50 - 250 * (u - 0.8) := by
  unfold interpolate
  norm_num
  ring

/-- score_dimension computes the spec's three-band curve, floored and
clamped to `[0, 100]` (the clamp and the floor commute). -/
theorem score_dimension_eq_curve (u : ℚ) :
    score_dimension u = max 0 (min 100 ⌊spec_score_curve u⌋) := by
  have hmain : score_dimension u = pytrunc (max 0 (min 100 (spec_score_curve u))) := by
    simp only [score_dimension, spec_score_curve]
    split_ifs with h1 h2
    · rw [interpolate_band1]
    · rw [interpolate_band2]
    · rw [interpolate_band3]
  rw [hmain, pytrunc_eq_floor (le_max_left _ _), floor_clamp]

/-- score_dimension never returns a negative score. -/
theorem score_dimension_nonneg (u : ℚ) : 0 ≤ score_dimension u := by
  rw [score_dimension_eq_curve]; exact le_max_left _ _

/-- score_dimension never returns a score above 100. -/
theorem score_dimension_le_100 (u : ℚ) : score_dimension u ≤ 100 := by
  rw [score_dimension_eq_curve]
  exact max_le (by norm_num) (min_le_left _ _)

/-- The spec's scoring curve is monotonically non-increasing. -/
theorem spec_score_curve_anti {u v : ℚ} (h : u ≤ v) :
    spec_score_curve v ≤ spec_score_curve u := by
  unfold spec_score_curve
  split_ifs <;> linarith

/-- score_dimension is monotonically non-increasing. -/
theorem score_dimension_anti {u v : ℚ} (h : u ≤ v) :
    score_dimension v ≤ score_dimension u := by
  rw [score_dimension_eq_curve, score_dimension_eq_curve]
  have := Int.floor_le_floor (α := ℚ) (spec_score_curve_anti h)
  exact max_le_max le_rfl (min_le_min le_rfl this)

/-- Binding a successful Except value applies the continuation. -/
theorem ok_bind {α β : Type} (a : α) (f : α → Except PyErr β) :
    (Except.ok a >>= f) = f a := rfl

/-- Binding a raised Except value propagates the error. -/
theorem error_bind {α β : Type} (e : PyErr) (f : α → Except PyErr β) :
    ((Except.error e : Except PyErr α) >>= f) = Except.error e := rfl

/-- Membership in a conditional singleton list. -/
theorem mem_ite_singleton {α : Type} (P : Prop) [Decidable P] (a b : α) :
    (a ∈ if P then [b] else []) ↔ P ∧ a = b := by
  split_ifs with h <;> simp [h]

/-- A conditional some equals a some exactly when the guard holds and the
payloads agree. -/
theorem ite_some_eq_some {α : Type} (P : Prop) [Decidable P] (a b : α) :
    ((if P then some a else none) = some b) ↔ P ∧ a = b := by
  split_ifs with h <;> simp [h]

/-- Mapping over a successful Except value applies the function. -/
theorem map_ok {α β : Type} (f : α → β) (a : α) :
    Except.map f (Except.ok a : Except PyErr α) = Except.ok (f a) := rfl

/-- Mapping over a raised Except value propagates the error. -/
theorem map_error {α β : Type} (f : α → β) (e : PyErr) :
    Except.map f (Except.error e : Except PyErr α) = Except.error e := rfl

/-- pure in the Except monad is Except.ok. -/
theorem pure_eq_ok {α : Type} (a : α) : (pure a : Except PyErr α) = Except.ok a := rfl

/-- compute_cpu_cost with nonzero divisor fields: the value it returns. -/
theorem compute_cpu_cost_ok (sim : SimulationResult) (config : SorobanConfig)
    (h1 : (config.feeRatePerInstructionsIncrement : ℚ) ≠ 0)
    (h2 : (config.txMaxInstructions : ℚ) ≠ 0)
    (h3 : (config.ledgerMaxInstructions : ℚ) ≠ 0) :
    compute_cpu_cost sim config = Except.ok
      { fee := (⌈(sim.instructions : ℚ) / (config.feeRatePerInstructionsIncrement : ℚ)⌉ : ℚ) *
          config.feeCPUPerIncrement,
        normalized := (sim.instructions : ℚ) / (config.txMaxInstructions : ℚ),
        ledger_pressure := ((sim.instructions : ℚ) / (config.ledgerMaxInstructions : ℚ)) ^ 2,
        total := ((⌈(sim.instructions : ℚ) / (config.feeRatePerInstructionsIncrement : ℚ)⌉ : ℚ) *
            config.feeCPUPerIncrement) *
          (1 + 0.5 * ((sim.instructions : ℚ) / (config.ledgerMaxInstructions : ℚ)) ^ 2) } := by
  simp [compute_cpu_cost, pydiv, h1, h2, h3, ok_bind]

/-- compute_cpu_cost with a zero fee-rate increment: the division raises. -/
theorem compute_cpu_cost_zero_rate (sim : SimulationResult) (config : SorobanConfig)
    (h : config.feeRatePerInstructionsIncrement = 0) :
    compute_cpu_cost sim config = Except.error PyErr.zeroDivision := by
  simp [compute_cpu_cost, pydiv, h, error_bind]

/-- compute_memory_cost with a nonzero memory limit: the value it returns. -/
theorem compute_memory_cost_ok (sim : SimulationResult) (config : SorobanConfig)
    (h : (config.txMemoryLimit : ℚ) ≠ 0) :
    compute_memory_cost sim config = Except.ok
      { bytes_used := sim.memoryBytes,
        normalized := (sim.memoryBytes : ℚ) / (config.txMemoryLimit : ℚ),
        cost := (SCALING_FACTOR_MEMORY : ℝ) *
          Real.exp (5 * ((((sim.memoryBytes : ℚ) / (config.txMemoryLimit : ℚ)) : ℚ) : ℝ)) } := by
  simp [compute_memory_cost, pydiv, h, ok_bind]

/-- compute_memory_cost with a zero memory limit: the division raises. -/
theorem compute_memory_cost_zero_limit (sim : SimulationResult) (config : SorobanConfig)
    (h : config.txMemoryLimit = 0) :
    compute_memory_cost sim config = Except.error PyErr.zeroDivision := by
  simp [compute_memory_cost, pydiv, h, error_bind]

/-- compute_ledger_cost with nonzero per-transaction limits: the value it
returns. -/
theorem compute_ledger_cost_ok (sim : SimulationResult) (config : SorobanConfig)
    (h1 : (config.txMaxReadLedgerEntries : ℚ) ≠ 0)
    (h2 : (config.txMaxReadBytes : ℚ) ≠ 0)
    (h3 : (config.txMaxWriteLedgerEntries : ℚ) ≠ 0)
    (h4 : (config.txMaxWriteBytes : ℚ) ≠ 0)
    (h5 : (config.txMaxSizeBytes : ℚ) ≠ 0) :
    compute_ledger_cost sim config = Except.ok
      { fee := ((sim.resources.footprint.readOnly.length : ℚ) * config.feeReadLedgerEntry +
            (kbUnits sim.resources.readBytes : ℚ) * config.feeRead1KB) +
          ((sim.resources.footprint.readWrite.length : ℚ) * config.feeWriteLedgerEntry +
            (kbUnits sim.resources.writeBytes : ℚ) * config.feeWrite1KB) +
          (kbUnits sim.transactionSizeBytes : ℚ) * config.feeTxSize1KB,
        normalized :=
          ((sim.resources.footprint.readOnly.length : ℚ) / (config.txMaxReadLedgerEntries : ℚ)) * 0.2 +
          ((sim.resources.readBytes : ℚ) / (config.txMaxReadBytes : ℚ)) * 0.2 +
          ((sim.resources.footprint.readWrite.length : ℚ) / (config.txMaxWriteLedgerEntries : ℚ)) * 0.2 +
          ((sim.resources.writeBytes : ℚ) / (config.txMaxWriteBytes : ℚ)) * 0.2 +
          ((sim.transactionSizeBytes : ℚ) / (config.txMaxSizeBytes : ℚ)) * 0.2,
        breakdown :=
          ⟨(sim.resources.footprint.readOnly.length : ℚ) / (config.txMaxReadLedgerEntries : ℚ),
           (sim.resources.readBytes : ℚ) / (config.txMaxReadBytes : ℚ),
           (sim.resources.footprint.readWrite.length : ℚ) / (config.txMaxWriteLedgerEntries : ℚ),
           (sim.resources.writeBytes : ℚ) / (config.txMaxWriteBytes : ℚ),
           (sim.transactionSizeBytes : ℚ) / (config.txMaxSizeBytes : ℚ)⟩ } := by
  simp [compute_ledger_cost, pydiv, h1, h2, h3, h4, h5, ok_bind,
    LedgerBreakdown.toList, LEDGER_WEIGHTS]
  ring

/-- analyze_transaction succeeds whenever all divisor-config fields are
nonzero. -/
theorem analyze_transaction_ok (sim : SimulationResult) (config : SorobanConfig)
    (h1 : (config.feeRatePerInstructionsIncrement : ℚ) ≠ 0)
    (h2 : (config.txMaxInstructions : ℚ) ≠ 0)
    (h3 : (config.ledgerMaxInstructions : ℚ) ≠ 0)
    (h4 : (config.txMemoryLimit : ℚ) ≠ 0)
    (h5 : (config.txMaxReadLedgerEntries : ℚ) ≠ 0)
    (h6 : (config.txMaxReadBytes : ℚ) ≠ 0)
    (h7 : (config.txMaxWriteLedgerEntries : ℚ) ≠ 0)
    (h8 : (config.txMaxWriteBytes : ℚ) ≠ 0)
    (h9 : (config.txMaxSizeBytes : ℚ) ≠ 0) :
    (analyze_transaction sim config).isOk = true := by
  rw [analyze_transaction, compute_cpu_cost_ok sim config h1 h2 h3,
    compute_memory_cost_ok sim config h4,
    compute_ledger_cost_ok sim config h5 h6 h7 h8 h9]
  rfl

end Helpers

section Claims

/-- A concrete CPUCost whose utilization scores 99 under score_dimension. -/
def cpuCostEx : CPUCost := ⟨0, 0.02, 0, 0⟩

/-- A concrete MemoryCost whose utilization scores 0 under score_dimension. -/
def memCostEx : MemoryCost := ⟨0, 1, 0⟩

/-- A concrete LedgerCost whose utilization scores 93 under score_dimension. -/
def ledgerCostEx : LedgerCost := ⟨0, 0.17, ⟨0, 0, 0, 0, 0⟩⟩

/-- C3: for every non-negative utilization, score_dimension equals the spec's
three-band piecewise-linear curve floored to an integer and clamped to
`[0, 100]`; score(0) = 100, score(1) = 0, and score(u) = 0 for every u ≥ 1. -/
theorem C3_score_dimension_matches_curve :
    (∀ u : ℚ, 0 ≤ u → score_dimension u = max 0 (min 100 ⌊spec_score_curve u⌋)) ∧
    score_dimension 0 = 100 ∧ score_dimension 1 = 0 ∧
    ∀ u : ℚ, 1 ≤ u → score_dimension u = 0 := by
  refine ⟨fun u _ => score_dimension_eq_curve u, ?_, ?_, ?_⟩
  · rw [score_dimension_eq_curve]
    norm_num [spec_score_curve]
  · rw [score_dimension_eq_curve]
    norm_num [spec_score_curve]
  · intro u hu
    rw [score_dimension_eq_curve]
    have hc : spec_score_curve u ≤ 0 := by
      unfold spec_score_curve
      split_ifs <;> linarith
    have hf : ⌊spec_score_curve u⌋ ≤ 0 := by
      have h := Int.floor_le_floor (α := ℚ) hc
      simpa using h
    rw [min_eq_right (hf.trans (by norm_num : (0 : ℤ) ≤ 100)), max_eq_left hf]

/-- Witness for C3 at the concrete utilizations 0.3 and 1.5. -/
theorem C3_witness :
    ((0 : ℚ) ≤ 0.3 ∧ score_dimension 0.3 = max 0 (min 100 ⌊spec_score_curve 0.3⌋)) ∧
    ((1 : ℚ) ≤ 1.5 ∧ score_dimension 1.5 = 0) :=
  ⟨⟨by norm_num, C3_score_dimension_matches_curve.1 0.3 (by norm_num)⟩,
   ⟨by norm_num, C3_score_dimension_matches_curve.2.2.2 1.5 (by norm_num)⟩⟩

/-- C4: compute_scores aggregates by flooring the weighted sum
`0.4*scoreCpu + 0.2*scoreMemory + 0.4*scoreLedger`; the concrete conjunct is
a triple of score_dimension outputs (99, 0, 93) whose weighted sum 76.8 is
floored to 76 (rounding to nearest would give 77). -/
theorem C4_total_floors_weighted_sum :
    (∀ (cpu : CPUCost) (mem : MemoryCost) (ledger : LedgerCost),
      (compute_scores cpu mem ledger).total =
        ⌊0.4 * (score_dimension cpu.normalized : ℚ) +
          0.2 * (score_dimension mem.normalized : ℚ) +
          0.4 * (score_dimension ledger.normalized : ℚ)⌋) ∧
    score_dimension cpuCostEx.normalized = 99 ∧
    score_dimension memCostEx.normalized = 0 ∧
    score_dimension ledgerCostEx.normalized = 93 ∧
    (compute_scores cpuCostEx memCostEx ledgerCostEx).total = 76 := by
  have hgen : ∀ (cpu : CPUCost) (mem : MemoryCost) (ledger : LedgerCost),
      (compute_scores cpu mem ledger).total =
        ⌊0.4 * (score_dimension cpu.normalized : ℚ) +
          0.2 * (score_dimension mem.normalized : ℚ) +
          0.4 * (score_dimension ledger.normalized : ℚ)⌋ := by
    intro cpu mem ledger
    have h1 : (0 : ℚ) ≤ (score_dimension cpu.normalized : ℚ) := by
      exact_mod_cast score_dimension_nonneg _
    have h2 : (0 : ℚ) ≤ (score_dimension mem.normalized : ℚ) := by
      exact_mod_cast score_dimension_nonneg _
    have h3 : (0 : ℚ) ≤ (score_dimension ledger.normalized : ℚ) := by
      exact_mod_cast score_dimension_nonneg _
    simp only [compute_scores, scoreWeightCpu, scoreWeightMemory, scoreWeightLedger]
    exact pytrunc_eq_floor (by positivity)
  have hc : score_dimension cpuCostEx.normalized = 99 := by
    rw [score_dimension_eq_curve]
    norm_num [cpuCostEx, spec_score_curve]
  have hm : score_dimension memCostEx.normalized = 0 := by
    rw [score_dimension_eq_curve]
    norm_num [memCostEx, spec_score_curve]
  have hl : score_dimension ledgerCostEx.normalized = 93 := by
    rw [score_dimension_eq_curve]
    norm_num [ledgerCostEx, spec_score_curve]
  refine ⟨hgen, hc, hm, hl, ?_⟩
  rw [hgen, hc, hm, hl]
  norm_num

/-- C5: compute_cpu_cost returns fee = ceil(instructions / increment) * rate,
ledger_pressure = (instructions / ledgerMaxInstructions)^2 and
total = fee * (1 + 0.5 * ledger_pressure); doubling the instruction count
(hence the ledger-relative ratio) exactly quadruples ledger_pressure. -/
theorem C5_cpu_cost_formula :
    ∀ (sim : SimulationResult) (config : SorobanConfig),
      0 ≤ sim.instructions →
      0 < config.feeRatePerInstructionsIncrement →
      0 < config.txMaxInstructions →
      0 < config.ledgerMaxInstructions →
      (compute_cpu_cost sim config = Except.ok
        { fee := (⌈(sim.instructions : ℚ) / (config.feeRatePerInstructionsIncrement : ℚ)⌉ : ℚ) *
            config.feeCPUPerIncrement,
          normalized := (sim.instructions : ℚ) / (config.txMaxInstructions : ℚ),
          ledger_pressure := ((sim.instructions : ℚ) / (config.ledgerMaxInstructions : ℚ)) ^ 2,
          total := ((⌈(sim.instructions : ℚ) / (config.feeRatePerInstructionsIncrement : ℚ)⌉ : ℚ) *
              config.feeCPUPerIncrement) *
            (1 + 0.5 * ((sim.instructions : ℚ) / (config.ledgerMaxInstructions : ℚ)) ^ 2) }) ∧
      (∀ sim2 : SimulationResult, sim2.instructions = 2 * sim.instructions →
        ∀ c c2 : CPUCost, compute_cpu_cost sim config = Except.ok c →
          compute_cpu_cost sim2 config = Except.ok c2 →
          c2.ledger_pressure = 4 * c.ledger_pressure) := by
  intro sim config _ hr ht hl
  have h1 : (config.feeRatePerInstructionsIncrement : ℚ) ≠ 0 := by
    exact_mod_cast hr.ne'
  have h2 : (config.txMaxInstructions : ℚ) ≠ 0 := by
    exact_mod_cast ht.ne'
  have h3 : (config.ledgerMaxInstructions : ℚ) ≠ 0 := by
    exact_mod_cast hl.ne'
  refine ⟨compute_cpu_cost_ok sim config h1 h2 h3, ?_⟩
  intro sim2 hdouble c c2 hc hc2
  rw [compute_cpu_cost_ok sim config h1 h2 h3] at hc
  rw [compute_cpu_cost_ok sim2 config h1 h2 h3] at hc2
  have hc' := (Except.ok.inj hc).symm
  have hc2' := (Except.ok.inj hc2).symm
  rw [hc', hc2']
  show ((sim2.instructions : ℚ) / (config.ledgerMaxInstructions : ℚ)) ^ 2 =
    4 * ((sim.instructions : ℚ) / (config.ledgerMaxInstructions : ℚ)) ^ 2
  rw [hdouble]
  push_cast
  ring

/-- A concrete simulation input for the C5 witness: 7 instructions. -/
def simC5 : SimulationResult :=
  ⟨7, 0, ⟨⟨[], []⟩, 7, 0, 0⟩, 0⟩

/-- Witness for C5 at 7 instructions under the default configuration. -/
theorem C5_witness :
    (0 : ℤ) ≤ simC5.instructions ∧
    compute_cpu_cost simC5 defaultConfig = Except.ok
      { fee := (⌈(simC5.instructions : ℚ) / (defaultConfig.feeRatePerInstructionsIncrement : ℚ)⌉ : ℚ) *
          defaultConfig.feeCPUPerIncrement,
        normalized := (simC5.instructions : ℚ) / (defaultConfig.txMaxInstructions : ℚ),
        ledger_pressure := ((simC5.instructions : ℚ) / (defaultConfig.ledgerMaxInstructions : ℚ)) ^ 2,
        total := ((⌈(simC5.instructions : ℚ) / (defaultConfig.feeRatePerInstructionsIncrement : ℚ)⌉ : ℚ) *
            defaultConfig.feeCPUPerIncrement) *
          (1 + 0.5 * ((simC5.instructions : ℚ) / (defaultConfig.ledgerMaxInstructions : ℚ)) ^ 2) } :=
  ⟨by norm_num [simC5],
   (C5_cpu_cost_formula simC5 defaultConfig (by norm_num [simC5])
     (by norm_num [defaultConfig]) (by norm_num [defaultConfig])
     (by norm_num [defaultConfig])).1⟩

/-- C6: compute_ledger_cost bills fee = costReads + costWrites + costBandwidth
with reads/writes the raw footprint list lengths and byte volumes converted to
kilobyte units by rounding up; 0 bytes bill 0 units, 1 and 1024 bytes bill 1,
1025 bytes bill 2. -/
theorem C6_ledger_fee_formula :
    (∀ (sim : SimulationResult) (config : SorobanConfig),
      config.txMaxReadLedgerEntries ≠ 0 → config.txMaxReadBytes ≠ 0 →
      config.txMaxWriteLedgerEntries ≠ 0 → config.txMaxWriteBytes ≠ 0 →
      config.txMaxSizeBytes ≠ 0 →
      (compute_ledger_cost sim config).map LedgerCost.fee = Except.ok
        (((sim.resources.footprint.readOnly.length : ℚ) * config.feeReadLedgerEntry +
            (kbUnits sim.resources.readBytes : ℚ) * config.feeRead1KB) +
          ((sim.resources.footprint.readWrite.length : ℚ) * config.feeWriteLedgerEntry +
            (kbUnits sim.resources.writeBytes : ℚ) * config.feeWrite1KB) +
          (kbUnits sim.transactionSizeBytes : ℚ) * config.feeTxSize1KB)) ∧
    kbUnits 0 = 0 ∧ kbUnits 1 = 1 ∧ kbUnits 1024 = 1 ∧ kbUnits 1025 = 2 := by
  refine ⟨?_, by norm_num [kbUnits],
    by unfold kbUnits; rw [Int.ceil_eq_iff]; norm_num,
    by norm_num [kbUnits],
    by unfold kbUnits; rw [Int.ceil_eq_iff]; norm_num⟩
  intro sim config g1 g2 g3 g4 g5
  have h1 : (config.txMaxReadLedgerEntries : ℚ) ≠ 0 := by exact_mod_cast g1
  have h2 : (config.txMaxReadBytes : ℚ) ≠ 0 := by exact_mod_cast g2
  have h3 : (config.txMaxWriteLedgerEntries : ℚ) ≠ 0 := by exact_mod_cast g3
  have h4 : (config.txMaxWriteBytes : ℚ) ≠ 0 := by exact_mod_cast g4
  have h5 : (config.txMaxSizeBytes : ℚ) ≠ 0 := by exact_mod_cast g5
  rw [compute_ledger_cost_ok sim config h1 h2 h3 h4 h5]
  rfl

/-- A concrete simulation input for the C6 witness: the simple-token-transfer
fixture of the repository's tests (2 reads, 1 write, 512/256 bytes, 4 KiB). -/
def simC6 : SimulationResult :=
  ⟨1250000, 2097152,
   ⟨⟨[some ("ContractData(token_balance_alice)"), some ("ContractData(token_metadata)")],
     [some ("ContractData(token_balance_bob)")]⟩, 1250000, 512, 256⟩, 4096⟩

/-- Witness for C6: the token-transfer fixture bills 0.00059 XLM of ledger
fees under the default configuration. -/
theorem C6_witness :
    (compute_ledger_cost simC6 defaultConfig).map LedgerCost.fee =
      Except.ok 0.00059 := by
  have h := (C6_ledger_fee_formula).1 simC6 defaultConfig
    (by norm_num [defaultConfig]) (by norm_num [defaultConfig])
    (by norm_num [defaultConfig]) (by norm_num [defaultConfig])
    (by norm_num [defaultConfig])
  have k1 : kbUnits 512 = 1 := by
    unfold kbUnits
    rw [Int.ceil_eq_iff]; norm_num
  have k2 : kbUnits 256 = 1 := by
    unfold kbUnits
    rw [Int.ceil_eq_iff]; norm_num
  have k3 : kbUnits 4096 = 4 := by
    norm_num [kbUnits]
  rw [h]
  norm_num [simC6, defaultConfig, k1, k2, k3]

/-- The all-zero SimulationResult (empty footprint, every count 0). -/
def simAllZero : SimulationResult :=
  ⟨0, 0, ⟨⟨[], []⟩, 0, 0, 0⟩, 0⟩

/-- C10: compute_memory_cost returns cost = 100 * e^(5 * memoryBytes/limit),
which is strictly positive and equals exactly 100 (not 0) at zero memory,
while for the all-zero simulation the fee-bearing costs and all utilizations
are 0. -/
theorem C10_memory_cost_exponential :
    (∀ (sim : SimulationResult) (config : SorobanConfig),
      0 ≤ sim.memoryBytes → 0 < config.txMemoryLimit →
      compute_memory_cost sim config = Except.ok
        { bytes_used := sim.memoryBytes,
          normalized := (sim.memoryBytes : ℚ) / (config.txMemoryLimit : ℚ),
          cost := (100 : ℝ) *
            Real.exp (5 * ((((sim.memoryBytes : ℚ) / (config.txMemoryLimit : ℚ)) : ℚ) : ℝ)) } ∧
      (0 : ℝ) <
        (100 : ℝ) * Real.exp (5 * ((((sim.memoryBytes : ℚ) / (config.txMemoryLimit : ℚ)) : ℚ) : ℝ)) ∧
      (sim.memoryBytes = 0 →
        (100 : ℝ) * Real.exp (5 * ((((sim.memoryBytes : ℚ) / (config.txMemoryLimit : ℚ)) : ℚ) : ℝ)) = 100)) ∧
    (compute_cpu_cost simAllZero defaultConfig).map
      (fun c => (c.fee, c.total, c.normalized)) = Except.ok (0, 0, 0) ∧
    (compute_ledger_cost simAllZero defaultConfig).map
      (fun l => (l.fee, l.normalized)) = Except.ok (0, 0) := by
  refine ⟨?_, ?_, ?_⟩
  · intro sim config _ hpos
    have h : (config.txMemoryLimit : ℚ) ≠ 0 := by exact_mod_cast hpos.ne'
    refine ⟨?_, by positivity, ?_⟩
    · rw [compute_memory_cost_ok sim config h]
      norm_num [SCALING_FACTOR_MEMORY]
    · intro h0
      rw [h0]
      norm_num
  · rw [compute_cpu_cost_ok simAllZero defaultConfig (by norm_num [defaultConfig])
      (by norm_num [defaultConfig]) (by norm_num [defaultConfig])]
    norm_num [simAllZero, defaultConfig, Except.map]
  · rw [compute_ledger_cost_ok simAllZero defaultConfig (by norm_num [defaultConfig])
      (by norm_num [defaultConfig]) (by norm_num [defaultConfig])
      (by norm_num [defaultConfig]) (by norm_num [defaultConfig])]
    norm_num [simAllZero, defaultConfig, kbUnits, Except.map]

/-- Witness for C10: at zero memory under the default configuration, the
memory cost is exactly the scaling factor 100. -/
theorem C10_witness :
    (compute_memory_cost simAllZero defaultConfig).map MemoryCost.cost =
      Except.ok 100 := by
  have h := (C10_memory_cost_exponential).1 simAllZero defaultConfig
    (by norm_num [simAllZero]) (by norm_num [defaultConfig])
  have h0 := h.2.2 rfl
  rw [h.1]
  simp only [Except.map]
  rw [h0]

/-- C7: score_dimension is monotonically non-increasing on non-negative
utilization ratios. -/
theorem C7_score_dimension_monotone :
    ∀ u1 u2 : ℚ, 0 ≤ u1 → u1 < u2 → score_dimension u2 ≤ score_dimension u1 :=
  fun _ _ _ h => score_dimension_anti h.le

/-- Witness for C7 at the concrete pair 0.3 < 0.9. -/
theorem C7_witness :
    (0 : ℚ) ≤ 0.3 ∧ (0.3 : ℚ) < 0.9 ∧ score_dimension 0.9 ≤ score_dimension 0.3 :=
  ⟨by norm_num, by norm_num,
   C7_score_dimension_monotone 0.3 0.9 (by norm_num) (by norm_num)⟩

/-- A configuration with a negative per-transaction instruction limit and
every other field at its default. -/
def cfgNegLimit : SorobanConfig := { txMaxInstructions := -1 }

/-- A configuration with a zero fee-rate increment (a zero limit field) and
every other field at its default. -/
def cfgZeroRate : SorobanConfig := { feeRatePerInstructionsIncrement := 0 }

/-- A configuration in which every limit field used as a divisor is
negative. -/
def cfgAllNeg : SorobanConfig :=
  { txMaxInstructions := -100000000,
    ledgerMaxInstructions := -1000000000,
    feeRatePerInstructionsIncrement := -10000,
    txMemoryLimit := -41943040,
    txMaxReadLedgerEntries := -40,
    txMaxReadBytes := -200000,
    txMaxWriteLedgerEntries := -25,
    txMaxWriteBytes := -100000,
    txMaxSizeBytes := -100000 }

/-- A small well-formed simulation input used to probe invalid
configurations. -/
def simProbe : SimulationResult :=
  ⟨10000, 0, ⟨⟨[], []⟩, 10000, 0, 0⟩, 0⟩

/-- Counterexample to C1: with the per-transaction instruction limit set to
the non-positive value -1, compute_cpu_cost raises nothing at all — it
succeeds and returns a negative utilization — and with the fee-rate increment
set to 0 the division itself is attempted and raises ZeroDivisionError; no
ConfigurationError exists anywhere in the code. -/
theorem C1_counterexample :
    (compute_cpu_cost simProbe cfgNegLimit).isOk = true ∧
    (compute_cpu_cost simProbe cfgNegLimit).map CPUCost.normalized =
      Except.ok (-10000) ∧
    compute_cpu_cost simProbe cfgZeroRate = Except.error PyErr.zeroDivision := by
  have hok := compute_cpu_cost_ok simProbe cfgNegLimit
    (by norm_num [cfgNegLimit]) (by norm_num [cfgNegLimit])
    (by norm_num [cfgNegLimit])
  refine ⟨by rw [hok]; rfl, ?_, ?_⟩
  · rw [hok]
    norm_num [simProbe, cfgNegLimit, Except.map]
  · exact compute_cpu_cost_zero_rate simProbe cfgZeroRate rfl

/-- C1 amended: the code defines no ConfigurationError and performs no
configuration validation.  Whenever the divisor fields of the configuration
are nonzero — in particular whenever limits are negative — every cost
function and the full pipeline succeed without raising, and when such a
field is zero the corresponding division itself is attempted and raises
ZeroDivisionError. -/
theorem C1_amended_no_config_validation :
    ∀ (sim : SimulationResult) (config : SorobanConfig),
      ((config.feeRatePerInstructionsIncrement ≠ 0 ∧ config.txMaxInstructions ≠ 0 ∧
          config.ledgerMaxInstructions ≠ 0) →
        (compute_cpu_cost sim config).isOk = true) ∧
      (config.feeRatePerInstructionsIncrement = 0 →
        compute_cpu_cost sim config = Except.error PyErr.zeroDivision) ∧
      (config.txMemoryLimit ≠ 0 → (compute_memory_cost sim config).isOk = true) ∧
      (config.txMemoryLimit = 0 →
        compute_memory_cost sim config = Except.error PyErr.zeroDivision) ∧
      ((config.txMaxReadLedgerEntries ≠ 0 ∧ config.txMaxReadBytes ≠ 0 ∧
          config.txMaxWriteLedgerEntries ≠ 0 ∧ config.txMaxWriteBytes ≠ 0 ∧
          config.txMaxSizeBytes ≠ 0) →
        (compute_ledger_cost sim config).isOk = true) ∧
      ((config.feeRatePerInstructionsIncrement ≠ 0 ∧ config.txMaxInstructions ≠ 0 ∧
          config.ledgerMaxInstructions ≠ 0 ∧ config.txMemoryLimit ≠ 0 ∧
          config.txMaxReadLedgerEntries ≠ 0 ∧ config.txMaxReadBytes ≠ 0 ∧
          config.txMaxWriteLedgerEntries ≠ 0 ∧ config.txMaxWriteBytes ≠ 0 ∧
          config.txMaxSizeBytes ≠ 0) →
        (analyze_transaction sim config).isOk = true) := by
  intro sim config
  refine ⟨?_, ?_, ?_, ?_, ?_, ?_⟩
  · rintro ⟨g1, g2, g3⟩
    rw [compute_cpu_cost_ok sim config (by exact_mod_cast g1) (by exact_mod_cast g2)
      (by exact_mod_cast g3)]
    rfl
  · exact compute_cpu_cost_zero_rate sim config
  · intro g
    rw [compute_memory_cost_ok sim config (by exact_mod_cast g)]
    rfl
  · exact compute_memory_cost_zero_limit sim config
  · rintro ⟨g1, g2, g3, g4, g5⟩
    rw [compute_ledger_cost_ok sim config (by exact_mod_cast g1) (by exact_mod_cast g2)
      (by exact_mod_cast g3) (by exact_mod_cast g4) (by exact_mod_cast g5)]
    rfl
  · rintro ⟨g1, g2, g3, g4, g5, g6, g7, g8, g9⟩
    exact analyze_transaction_ok sim config (by exact_mod_cast g1) (by exact_mod_cast g2)
      (by exact_mod_cast g3) (by exact_mod_cast g4) (by exact_mod_cast g5)
      (by exact_mod_cast g6) (by exact_mod_cast g7) (by exact_mod_cast g8)
      (by exact_mod_cast g9)

/-- Witness for the amended C1: with every divisor-limit field negative, the
full pipeline succeeds without raising anything. -/
theorem C1_witness :
    (analyze_transaction simProbe cfgAllNeg).isOk = true :=
  (C1_amended_no_config_validation simProbe cfgAllNeg).2.2.2.2.2
    (by norm_num [cfgAllNeg])

/-- A simulation input with negative instructions, negative byte counts, and
a malformed footprint (a None entry in readOnly, a None entry among the
readWrite strings). -/
def simNegValues : SimulationResult :=
  ⟨-20000, -7, ⟨⟨[none], [some ("k"), none]⟩, -20000, -3, -2⟩, -11⟩

/-- Counterexample to C2: a SimulationResult with negative instructions,
negative byte counts and null footprint entries is not rejected —
analyze_transaction succeeds on it, and the negative instruction count flows
into a negative CPU fee; no InvalidInputError exists anywhere in the code. -/
theorem C2_counterexample :
    (analyze_transaction simNegValues defaultConfig).isOk = true ∧
    (compute_cpu_cost simNegValues defaultConfig).map CPUCost.fee =
      Except.ok (-0.00002) := by
  constructor
  · exact analyze_transaction_ok simNegValues defaultConfig
      (by norm_num [defaultConfig]) (by norm_num [defaultConfig])
      (by norm_num [defaultConfig]) (by norm_num [defaultConfig])
      (by norm_num [defaultConfig]) (by norm_num [defaultConfig])
      (by norm_num [defaultConfig]) (by norm_num [defaultConfig])
      (by norm_num [defaultConfig])
  · rw [compute_cpu_cost_ok simNegValues defaultConfig (by norm_num [defaultConfig])
      (by norm_num [defaultConfig]) (by norm_num [defaultConfig])]
    have hceil : (⌈(simNegValues.instructions : ℚ) /
        (defaultConfig.feeRatePerInstructionsIncrement : ℚ)⌉ : ℤ) = -2 := by
      norm_num [simNegValues, defaultConfig]
      rw [Int.ceil_eq_iff]; norm_num
    simp only [Except.map]
    rw [hceil]
    norm_num [defaultConfig]

/-- C2 amended: analyze_transaction performs no input validation and the code
defines no InvalidInputError: under the default configuration every
SimulationResult — negative counts and null footprint entries included —
flows through cost computation and yields a successful Analysis. -/
theorem C2_amended_no_input_validation :
    ∀ sim : SimulationResult, (analyze_transaction sim defaultConfig).isOk = true :=
  fun sim => analyze_transaction_ok sim defaultConfig
    (by norm_num [defaultConfig]) (by norm_num [defaultConfig])
    (by norm_num [defaultConfig]) (by norm_num [defaultConfig])
    (by norm_num [defaultConfig]) (by norm_num [defaultConfig])
    (by norm_num [defaultConfig]) (by norm_num [defaultConfig])
    (by norm_num [defaultConfig])

/-- The CPU threshold rule pair of generate_hints (an if/elif) equals the two
mutually exclusive rules of the spec's list. -/
theorem cpu_hint_segment (n : ℚ) :
    (if 0.8 < n then [Hint.cpuCritical]
     else if 0.6 < n then [Hint.cpuHigh] else []) =
    (if 0.8 < n then [Hint.cpuCritical] else []) ++
      (if 0.6 < n ∧ n ≤ 0.8 then [Hint.cpuHigh] else []) := by
  by_cases h1 : 0.8 < n
  · rw [if_pos h1, if_pos h1, if_neg]
    · rfl
    · rintro ⟨_, h3⟩
      linarith
  · rw [if_neg h1, if_neg h1]
    by_cases h2 : 0.6 < n
    · rw [if_pos h2, if_pos ⟨h2, not_lt.1 h1⟩]
      rfl
    · rw [if_neg h2, if_neg]
      · rfl
      · rintro ⟨h3, _⟩
        exact h2 h3

/-- The memory threshold rule pair of generate_hints (an if/elif) equals the
two mutually exclusive rules of the spec's list. -/
theorem mem_hint_segment (n : ℚ) :
    (if 0.7 < n then [Hint.memCritical]
     else if 0.5 < n then [Hint.memModerate] else []) =
    (if 0.7 < n then [Hint.memCritical] else []) ++
      (if 0.5 < n ∧ n ≤ 0.7 then [Hint.memModerate] else []) := by
  by_cases h1 : 0.7 < n
  · rw [if_pos h1, if_pos h1, if_neg]
    · rfl
    · rintro ⟨_, h3⟩
      linarith
  · rw [if_neg h1, if_neg h1]
    by_cases h2 : 0.5 < n
    · rw [if_pos h2, if_pos ⟨h2, not_lt.1 h1⟩]
      rfl
    · rw [if_neg h2, if_neg]
      · rfl
      · rintro ⟨h3, _⟩
        exact h2 h3

/-- The per-dimension ledger hint loop of generate_hints, unrolled in the
breakdown's fixed enumeration order. -/
theorem ledger_hint_segment (b : LedgerBreakdown) :
    (b.toList.filterMap fun p =>
      if 0.75 < p.2 then some (Hint.ledgerHigh p.1) else none) =
    (if 0.75 < b.read_entries then [Hint.ledgerHigh LedgerDim.readEntries] else []) ++
    (if 0.75 < b.read_bytes then [Hint.ledgerHigh LedgerDim.readBytes] else []) ++
    (if 0.75 < b.write_entries then [Hint.ledgerHigh LedgerDim.writeEntries] else []) ++
    (if 0.75 < b.write_bytes then [Hint.ledgerHigh LedgerDim.writeBytes] else []) ++
    (if 0.75 < b.bandwidth then [Hint.ledgerHigh LedgerDim.bandwidth] else []) := by
  simp only [LedgerBreakdown.toList, List.filterMap_cons, List.filterMap_nil]
  split_ifs <;> rfl

/-- generate_hints is the spec's ordered rule list with the efficient
fallback exactly when no rule fired. -/
theorem generate_hints_eq_spec_rules (cpu : CPUCost) (mem : MemoryCost)
    (ledger : LedgerCost) :
    generate_hints cpu mem ledger =
      (if spec_rule_hints cpu mem ledger = [] then [Hint.efficient]
       else spec_rule_hints cpu mem ledger) := by
  simp only [generate_hints, spec_rule_hints]
  rw [cpu_hint_segment, mem_hint_segment, ledger_hint_segment]
  simp only [List.append_assoc]

/-- The efficient fallback tag is never produced by a fired rule. -/
theorem efficient_not_mem_spec_rules (cpu : CPUCost) (mem : MemoryCost)
    (ledger : LedgerCost) : Hint.efficient ∉ spec_rule_hints cpu mem ledger := by
  simp [spec_rule_hints, mem_ite_singleton]

/-- C8: the safety check appends a violation naming a dimension exactly when
that dimension's utilization strictly exceeds 0.95 (over CPU, memory, and the
five ledger breakdown dimensions), and analyze_transaction returns the
fees, scores and hints computed before the check, unaltered, alongside the
check's output. -/
theorem C8_safety_check_iff_and_additive :
    (∀ (cpu : CPUCost) (mem : MemoryCost) (ledger : LedgerCost),
      ((Violation.cpu ∈ safety_check cpu mem ledger) ↔ 0.95 < cpu.normalized) ∧
      ((Violation.memory ∈ safety_check cpu mem ledger) ↔ 0.95 < mem.normalized) ∧
      (∀ d : LedgerDim,
        (Violation.ledger d ∈ safety_check cpu mem ledger) ↔
          0.95 < ledger.breakdown.get d)) ∧
    (∀ (sim : SimulationResult) (config : SorobanConfig),
      analyze_transaction sim config =
        compute_cpu_cost sim config >>= fun cpu =>
          compute_memory_cost sim config >>= fun mem =>
            Except.map
              (fun ledger =>
                { costs := ⟨cpu, mem, ledger⟩,
                  scores := compute_scores cpu mem ledger,
                  hints := generate_hints cpu mem ledger,
                  safety_violations := safety_check cpu mem ledger,
                  config_version := config.version })
              (compute_ledger_cost sim config)) := by
  constructor
  · intro cpu mem ledger
    refine ⟨?_, ?_, ?_⟩
    · simp [safety_check, mem_ite_singleton, List.mem_filterMap,
        LedgerBreakdown.toList, ite_some_eq_some]
    · simp [safety_check, mem_ite_singleton, List.mem_filterMap,
        LedgerBreakdown.toList, ite_some_eq_some]
    · intro d
      cases d <;>
        simp [safety_check, mem_ite_singleton, List.mem_filterMap,
          LedgerBreakdown.toList, ite_some_eq_some, LedgerBreakdown.get]
  · intro sim config
    rcases hc : compute_cpu_cost sim config with e | c
    · simp [analyze_transaction, hc, error_bind]
    · rcases hm : compute_memory_cost sim config with e2 | m
      · simp [analyze_transaction, hc, hm, ok_bind, error_bind]
      · rcases hl : compute_ledger_cost sim config with e3 | l
        · simp [analyze_transaction, hc, hm, hl, ok_bind, error_bind, map_error]
        · simp [analyze_transaction, hc, hm, hl, ok_bind, map_ok, pure_eq_ok]

/-- C9: generate_hints evaluates the spec's rules in their fixed order, emits
every fired rule's message in that order, and returns the single efficient
fallback exactly when no rule fired; its result is never empty. -/
theorem C9_generate_hints_order :
    ∀ (cpu : CPUCost) (mem : MemoryCost) (ledger : LedgerCost),
      generate_hints cpu mem ledger =
        (if spec_rule_hints cpu mem ledger = [] then [Hint.efficient]
         else spec_rule_hints cpu mem ledger) ∧
      generate_hints cpu mem ledger ≠ [] ∧
      ((Hint.efficient ∈ generate_hints cpu mem ledger) ↔
        spec_rule_hints cpu mem ledger = []) := by
  intro cpu mem ledger
  have heq := generate_hints_eq_spec_rules cpu mem ledger
  refine ⟨heq, ?_, ?_⟩
  · rw [heq]
    split_ifs with h
    · simp
    · exact h
  · rw [heq]
    split_ifs with h
    · simp [h]
    · simp [h, efficient_not_mem_spec_rules cpu mem ledger]

end Claims

end GasGuard
